import Mathlib

/-!
Shallow embedding of the SlackBot answer pipeline (src/index.js) and proofs
about its provider-fallback, suggestion, knowledge-indexing, conversation-cache
and persona behaviour.
-/

namespace SlackBot

/-- Characters matched by the ASCII part of the JavaScript regex class `\s`. -/
def isJsWs (c : Char) : Bool :=
  c == ' ' || c == '\t' || c == '\n' || c == '\r' || c == '\x0b' || c == '\x0c'

/-- Whitespace skipped between tokens by `JSON.parse`. -/
def isJsonWs (c : Char) : Bool :=
  c == ' ' || c == '\t' || c == '\n' || c == '\r'

/-- Boolean test that `pat` is an initial segment of the second list.
Used to embed JavaScript `String.prototype.startsWith`. -/
def listHeadMatch : List Char → List Char → Bool
  | [], _ => true
  | _ :: _, [] => false
  | a :: as, b :: bs => a == b && listHeadMatch as bs

/-- Boolean test that `pat` occurs as a contiguous sublist.
Used to embed JavaScript `String.prototype.includes`. -/
def listHasSub (pat : List Char) : List Char → Bool
  | [] => pat.isEmpty
  | c :: rest => listHeadMatch pat (c :: rest) || listHasSub pat rest

/-- Embedding of JavaScript `s.includes(pat)`. -/
def strContains (s pat : String) : Bool := listHasSub pat.data s.data

/-- Embedding of JavaScript `s.startsWith(pre)`. -/
def strHeadMatch (s pre : String) : Bool := listHeadMatch pre.data s.data

/-- A JavaScript error value as inspected by `AIService.isRateLimitError`
(src/index.js:176): `message` embeds `error.message || ''`, and `errorCode`
embeds `error.error.code` when `error.error` is present. -/
structure JsError where
  message : String
  errorCode : Option String
deriving DecidableEq

/-- Result of one provider call: the resolved text, or the thrown error. -/
inductive ProviderResult where
  | ok (text : String) : ProviderResult
  | err (e : JsError) : ProviderResult
deriving DecidableEq

/-- AIService.isRateLimitError (src/index.js:176):
`(error.message || '').includes('429') || (error.error && error.error.code === 'rate_limit_exceeded')`. -/
def isRateLimitError (e : JsError) : Bool :=
  strContains e.message "429" || e.errorCode == some "rate_limit_exceeded"

/-- The fixed apology returned by `AIService.generateAnswer` when a failure is
not recovered (src/index.js:192). -/
def apologyText : String :=
  "Sorry, I had trouble formulating a response. The AI may have refused to answer due to its safety policies."

/-- Trace of one `AIService.generateAnswer` run: the returned text together
with the prompts sent to the primary (Gemini) and fallback (OpenAI) providers. -/
structure AnswerTrace where
  text : String
  geminiCalls : List String
  openaiCalls : List String
deriving DecidableEq

/-- The `useFallback = true` branch of `AIService.generateAnswer`
(src/index.js:178-194): call OpenAI; on any thrown error the catch block runs
with `useFallback` set, so the rate-limit retry guard fails and the apology is
returned. The fallback therefore runs exactly once. -/
def generateAnswerFB (openai : String → ProviderResult) (prompt : String) : AnswerTrace :=
  match openai prompt with
  | .ok t => ⟨t, [], [prompt]⟩
  | .err _ => ⟨apologyText, [], [prompt]⟩

/-- AIService.generateAnswer entered with the default `useFallback = false`
(src/index.js:178-194): call Gemini; on a thrown error, retry once through the
fallback provider only when `isRateLimitError` holds, otherwise return the
fixed apology. The provider clients are passed as function parameters. -/
def generateAnswer (gemini openai : String → ProviderResult) (prompt : String) : AnswerTrace :=
  match gemini prompt with
  | .ok t => ⟨t, [prompt], []⟩
  | .err e =>
    if isRateLimitError e then
      let r := generateAnswerFB openai prompt
      { text := r.text, geminiCalls := prompt :: r.geminiCalls, openaiCalls := r.openaiCalls }
    else
      ⟨apologyText, [prompt], []⟩

/-- C1: if the primary call fails with a rate-limited outcome, the fallback is
invoked exactly once with the same prompt; its successful text is returned, and
if the fallback itself fails it is not retried (the apology is returned). -/
theorem rateLimited_fallback_once (g o : String → ProviderResult) (p : String) (e : JsError)
    (hg : g p = .err e) (hrl : isRateLimitError e = true) :
    (generateAnswer g o p).openaiCalls = [p] ∧
    (∀ t, o p = .ok t → (generateAnswer g o p).text = t) ∧
    (∀ e2, o p = .err e2 → (generateAnswer g o p).text = apologyText) := by
  unfold generateAnswer generateAnswerFB
  rw [hg]
  simp only [hrl, if_true]
  refine ⟨?_, ?_, ?_⟩
  · cases ho : o p <;> simp
  · intro t ht; rw [ht]
  · intro e2 he2; rw [he2]

/-- Witness for `rateLimited_fallback_once` at a concrete rate-limited primary
and a succeeding fallback. -/
theorem rateLimited_fallback_once_witness :
    (generateAnswer (fun _ => .err ⟨"HTTP 429 Too Many Requests", none⟩)
      (fun _ => .ok "fallback says hi") "p").openaiCalls = ["p"] ∧
    (generateAnswer (fun _ => .err ⟨"HTTP 429 Too Many Requests", none⟩)
      (fun _ => .ok "fallback says hi") "p").text = "fallback says hi" := by
  have h := rateLimited_fallback_once
    (fun _ => .err ⟨"HTTP 429 Too Many Requests", none⟩)
    (fun _ => .ok "fallback says hi") "p" ⟨"HTTP 429 Too Many Requests", none⟩ rfl (by decide)
  exact ⟨h.1, h.2.1 "fallback says hi" rfl⟩

/-- Scan forward to the next `"` character, returning the characters before it
and the remainder after it. This is the effective behaviour of the non-greedy
group `".*?"` in the suggestion regex of src/index.js:221 on its match inputs:
a quoted chunk extends to the nearest closing quote. -/
def scanToQuote : List Char → Option (List Char × List Char)
  | [] => none
  | c :: rest =>
    if c == '"' then some ([], rest)
    else
      match scanToQuote rest with
      | some (content, rem) => some (c :: content, rem)
      | none => none

/-- Match one `".*?"` quoted chunk at the head of the input, returning the
matched characters (quotes included) and the remainder. -/
def matchQuoted : List Char → Option (List Char × List Char)
  | '"' :: rest =>
    match scanToQuote rest with
    | some (content, rem) => some ('"' :: content ++ ['"'], rem)
    | none => none
  | _ => none

/-- Match the `\s*(,\s*".*?"\s*)*\]` tail of the suggestion regex
(src/index.js:221) starting right after a quoted chunk plus trailing
whitespace. Returns the matched characters. `fuel` bounds the recursion by the
input length. -/
def matchTail : Nat → List Char → Option (List Char)
  | 0, _ => none
  | _ + 1, [] => none
  | fuel + 1, c :: rest =>
    if c == ']' then some [']']
    else if c == ',' then
      let ws1 := rest.takeWhile isJsWs
      let r1 := rest.dropWhile isJsWs
      match matchQuoted r1 with
      | none => none
      | some (q, r2) =>
        let ws2 := r2.takeWhile isJsWs
        let r3 := r2.dropWhile isJsWs
        match matchTail fuel r3 with
        | none => none
        | some t => some (c :: ws1 ++ q ++ ws2 ++ t)
    else none

/-- Match the whole regex `\[\s*".*?"\s*(,\s*".*?"\s*)*\]` (src/index.js:221)
anchored at the head of the input, returning the matched characters. -/
def matchArrayAt (l : List Char) : Option (List Char) :=
  match l with
  | '[' :: rest =>
    let ws0 := rest.takeWhile isJsWs
    let r0 := rest.dropWhile isJsWs
    match matchQuoted r0 with
    | none => none
    | some (q, r1) =>
      let ws1 := r1.takeWhile isJsWs
      let r2 := r1.dropWhile isJsWs
      match matchTail (r2.length + 1) r2 with
      | none => none
      | some t => some ('[' :: ws0 ++ q ++ ws1 ++ t)
  | _ => none

/-- Leftmost match of the suggestion regex: try each start position from the
left, as `String.prototype.match` does for an unanchored pattern. -/
def findArrayMatch : List Char → Option (List Char)
  | [] => none
  | c :: rest =>
    match matchArrayAt (c :: rest) with
    | some m => some m
    | none => findArrayMatch rest

/-- Embedding of `text.match(/\[\s*".*?"\s*(,\s*".*?"\s*)*\]/s)` from
AIService.generateSuggestions (src/index.js:221): the first matched substring,
or none. -/
def arrayMatch (s : String) : Option String :=
  (findArrayMatch s.data).map String.mk

/-- Value of one hexadecimal digit, as accepted in a JSON `\u` escape. -/
def hexDigitVal (c : Char) : Option Nat :=
  if '0' ≤ c ∧ c ≤ '9' then some (c.toNat - '0'.toNat)
  else if 'a' ≤ c ∧ c ≤ 'f' then some (c.toNat - 'a'.toNat + 10)
  else if 'A' ≤ c ∧ c ≤ 'F' then some (c.toNat - 'A'.toNat + 10)
  else none

/-- Parse the body of a JSON string (opening quote already consumed),
honouring the JSON escape sequences and rejecting raw control characters and
invalid escapes, exactly the cases on which `JSON.parse` throws. Returns the
decoded characters and the remainder after the closing quote. -/
def parseJStringBody : Nat → List Char → Option (List Char × List Char)
  | 0, _ => none
  | _ + 1, [] => none
  | fuel + 1, c :: rest =>
    if c == '"' then some ([], rest)
    else if c == '\\' then
      match rest with
      | [] => none
      | e :: rest2 =>
        let esc : Option (Char × List Char) :=
          if e == '"' then some ('"', rest2)
          else if e == '\\' then some ('\\', rest2)
          else if e == '/' then some ('/', rest2)
          else if e == 'b' then some (Char.ofNat 8, rest2)
          else if e == 'f' then some (Char.ofNat 12, rest2)
          else if e == 'n' then some ('\n', rest2)
          else if e == 'r' then some ('\r', rest2)
          else if e == 't' then some ('\t', rest2)
          else if e == 'u' then
            match rest2 with
            | h1 :: h2 :: h3 :: h4 :: rest3 =>
              match hexDigitVal h1, hexDigitVal h2, hexDigitVal h3, hexDigitVal h4 with
              | some a, some b, some c2, some d =>
                some (Char.ofNat (((a * 16 + b) * 16 + c2) * 16 + d), rest3)
              | _, _, _, _ => none
            | _ => none
          else none
        match esc with
        | none => none
        | some (ch, r) =>
          match parseJStringBody fuel r with
          | some (cs, rem) => some (ch :: cs, rem)
          | none => none
    else if c.toNat < 32 then none
    else
      match parseJStringBody fuel rest with
      | some (cs, rem) => some (c :: cs, rem)
      | none => none

/-- Parse the `(\s*,\s*"…")*\s*\]` tail of a JSON array of strings, after the
first element. Returns the parsed strings and the remainder after `]`. -/
def parseArrayTail : Nat → List Char → Option (List String × List Char)
  | 0, _ => none
  | fuel + 1, l =>
    match l.dropWhile isJsonWs with
    | ']' :: rest => some ([], rest)
    | ',' :: rest =>
      match rest.dropWhile isJsonWs with
      | '"' :: r3 =>
        match parseJStringBody (r3.length + 1) r3 with
        | none => none
        | some (cs, r4) =>
          match parseArrayTail fuel r4 with
          | none => none
          | some (ss, rem) => some (String.mk cs :: ss, rem)
      | _ => none
    | _ => none

/-- Embedding of `JSON.parse` applied to the regex match of
AIService.generateSuggestions (src/index.js:222), specialised to its input
shape, a JSON array of strings. `none` models a thrown `SyntaxError`. -/
def parseStringArray (s : String) : Option (List String) :=
  match s.data.dropWhile isJsonWs with
  | '[' :: rest =>
    match rest.dropWhile isJsonWs with
    | ']' :: rem => if (rem.dropWhile isJsonWs).isEmpty then some [] else none
    | '"' :: r2 =>
      match parseJStringBody (r2.length + 1) r2 with
      | none => none
      | some (cs, r3) =>
        match parseArrayTail (r3.length + 1) r3 with
        | none => none
        | some (ss, rem) =>
          if (rem.dropWhile isJsonWs).isEmpty then some (String.mk cs :: ss) else none
    | _ => none
  | _ => none

/-- The text-processing part of AIService.generateSuggestions
(src/index.js:219-226): empty model text yields `[]`; otherwise locate the
first regex match and `JSON.parse` it, any parse failure being caught by the
surrounding try/catch and yielding `[]`. Total, so it never raises. -/
def extractSuggestions (text : String) : List String :=
  if text = "" then []
  else
    match arrayMatch text with
    | none => []
    | some m => (parseStringArray m).getD []

/-- AIService.generateSuggestions (src/index.js:216-227): one direct call to
the primary (Gemini) model — no fallback — whose thrown errors are caught and
degrade to an empty list, then the lenient extraction of a quoted-string
array. -/
def generateSuggestions (gemini : String → ProviderResult) (prompt : String) : List String :=
  match gemini prompt with
  | .err _ => []
  | .ok text => extractSuggestions text

/-- The failure sentinel written to `indexedKnowledge` when no source yields
content (src/index.js:137). -/
def failSentinel : String :=
  "Failed to index any documents. Please check the logs for errors."

/-- The success status returned by `KnowledgeSource.indexAll` (src/index.js:143). -/
def successMsg : String :=
  "All knowledge sources have been successfully indexed."

/-- Outcome of one knowledge-source fetch before the per-source catch:
resolved text (unconfigured sources resolve to the empty string), or a thrown
error. -/
inductive FetchOutcome where
  | ok (text : String) : FetchOutcome
  | failed : FetchOutcome
deriving DecidableEq

/-- The per-source catch of src/index.js:134: `p.catch(e => ... return "")` —
a failed fetch contributes empty text. -/
def settle : FetchOutcome → String
  | .ok t => t
  | .failed => ""

/-- KnowledgeSource.indexAll (src/index.js:131-144), with the three fetch
outcomes as inputs. Returns the new `indexedKnowledge` blob and the status
string the command replies with; failure is reported by returning the blob
itself when it starts with "Failed". -/
def indexAll (g n u : FetchOutcome) : String × String :=
  let gc := settle g
  let nc := settle n
  let uc := settle u
  let blob :=
    if gc == "" && nc == "" && uc == "" then failSentinel
    else "--- GOOGLE DOCS ---\n" ++ gc ++ "\n\n--- NOTION ---\n" ++ nc ++
      "\n\n--- URL CONTENT ---\n" ++ uc
  (blob, if strHeadMatch blob "Failed" then blob else successMsg)

/-- One stored value of the `CONVERSATION_CACHE` (src/index.js:51): the
question/answer pair set by handleQuestion, plus the node-cache expiry
timestamp `t = now + stdTTL * 1000` recorded at `set` time. -/
structure CacheEntry where
  question : String
  answer : String
  expiresAt : Nat
deriving DecidableEq

/-- The `stdTTL: 600` seconds of `new NodeCache({ stdTTL: 600 })`
(src/index.js:51). -/
def stdTTLSeconds : Nat := 600

/-- The cache TTL in milliseconds, the unit of `Date.now()`. -/
def stdTTLms : Nat := stdTTLSeconds * 1000

/-- node-cache `set`: insert or replace the entry for `key`, with expiry
`now + stdTTL * 1000`. -/
def cacheSet (now : Nat) (c : List (String × CacheEntry)) (key q a : String) :
    List (String × CacheEntry) :=
  (key, ⟨q, a, now + stdTTLms⟩) :: c.filter (fun p => p.1 ≠ key)

/-- node-cache `get`: the entry for `key` unless absent or expired; an entry
is expired exactly when its recorded expiry is strictly before `now`. -/
def cacheGet (now : Nat) (c : List (String × CacheEntry)) (key : String) :
    Option (String × String) :=
  match c.find? (fun p => p.1 == key) with
  | none => none
  | some (_, e) => if e.expiresAt < now then none else some (e.question, e.answer)

/-- The process-wide mutable state of the bot that the pipeline reads and
writes: `CONVERSATION_CACHE`, `currentPersona`, `indexedKnowledge`
(src/index.js:49-52). -/
structure BotState where
  cache : List (String × CacheEntry)
  persona : String
  indexedKnowledge : String
deriving DecidableEq

/-- The conversation key `convo-${userId}-${channelId}` of src/index.js:271. -/
def conversationKey (userId channelId : String) : String :=
  "convo-" ++ userId ++ "-" ++ channelId

/-- The `documentOverride || indexedKnowledge` resolution of src/index.js:274
(JavaScript `||`: a null or empty override falls back to the indexed blob). -/
def resolveDocument (ov : Option String) (knowledge : String) : String :=
  match ov with
  | some d => if d == "" then knowledge else d
  | none => knowledge

/-- The grounded answer prompt built by handleQuestion (src/index.js:275). -/
def buildPrompt (persona : String) (previous : Option (String × String))
    (document question : String) : String :=
  "You are " ++ persona ++
    ". Answer the NEW QUESTION based on the DOCUMENT and PREVIOUS CONTEXT.\n\nPREVIOUS CONTEXT:\n" ++
    (match previous with
     | some (q, a) => "User: \"" ++ q ++ "\". You: \"" ++ a ++ "\""
     | none => "None.") ++
    "\n---\nDOCUMENT:\n" ++ document ++ "\n---\nNEW QUESTION:\n\"" ++ question ++ "\""

/-- The follow-up-question prompt of src/index.js:281. -/
def suggestionPrompt (mainAnswer : String) : String :=
  "Based on the answer \"" ++ mainAnswer ++
    "\", suggest three follow-up questions. Return a JavaScript array of strings."

/-- The refusal marker tested by `mainAnswer.includes(...)` at src/index.js:280. -/
def refusalMarker : String := "I do not have information"

/-- Result of one handleQuestion run: the answer text and suggestion list
handed to rendering, the conversation cache after the run, and the prompts
sent to each provider. -/
structure QuestionResult where
  text : String
  suggestions : List String
  newCache : List (String × CacheEntry)
  geminiCalls : List String
  openaiCalls : List String
deriving DecidableEq

/-- handleQuestion (src/index.js:265-294), with the provider clients and the
current clock as parameters: read the previous turn from the cache, build the
grounded prompt, call generateAnswer, generateSuggestions unless the answer
contains the refusal marker, then commit the question/answer pair to the
cache. -/
def handleQuestion (gemini openai : String → ProviderResult) (now : Nat)
    (st : BotState) (userQuestion channelId userId : String)
    (documentOverride : Option String) : QuestionResult :=
  let conversationId := conversationKey userId channelId
  let previous := cacheGet now st.cache conversationId
  let document := resolveDocument documentOverride st.indexedKnowledge
  let prompt := buildPrompt st.persona previous document userQuestion
  let ans := generateAnswer gemini openai prompt
  let doSuggest := !(strContains ans.text refusalMarker)
  let suggestions :=
    if doSuggest then generateSuggestions gemini (suggestionPrompt ans.text) else []
  let newCache := cacheSet now st.cache conversationId userQuestion ans.text
  { text := ans.text
    suggestions := suggestions
    newCache := newCache
    geminiCalls := ans.geminiCalls ++ (if doSuggest then [suggestionPrompt ans.text] else [])
    openaiCalls := ans.openaiCalls }

/-- One Slack Block API block as assembled by buildMessagePayload
(src/index.js:253-263): a mrkdwn section, a divider, or a context line. -/
inductive Block where
  | sec (text : String) : Block
  | divider : Block
  | ctx (text : String) : Block
deriving DecidableEq

/-- The `{ text, blocks }` payload of buildMessagePayload. -/
structure MessagePayload where
  text : String
  blocks : List Block
deriving DecidableEq

/-- buildMessagePayload (src/index.js:253-263): a section with the answer,
then — when suggestions are present — a divider, a context header, and one
section per suggestion taken from `suggestions.slice(0, 5)`. -/
def buildMessagePayload (text : String) (suggestions : List String) : MessagePayload :=
  let base := [Block.sec text]
  if suggestions.length > 0 then
    { text := text
      blocks := base ++ [Block.divider, Block.ctx "*You might also want to ask:*"] ++
        (suggestions.take 5).map (fun q => Block.sec (">_" ++ q ++ "_")) }
  else
    { text := text, blocks := base }

/-- Embedding of JavaScript `String.prototype.trim`: strip whitespace from
both ends. -/
def jsTrim (s : String) : String :=
  String.mk (((s.data.dropWhile isJsWs).reverse.dropWhile isJsWs).reverse)

/-- The `/set-persona` command handler (src/index.js:407-418): trim the
command text; when empty, reply with usage and leave the persona unchanged;
otherwise overwrite the process-wide `currentPersona`. -/
def setPersonaCommand (commandText : String) (st : BotState) : BotState :=
  let newPersona := jsTrim commandText
  if newPersona = "" then st else { st with persona := newPersona }

theorem listHeadMatch_self_append (l r : List Char) : listHeadMatch l (l ++ r) = true := by
  induction l with
  | nil => simp [listHeadMatch]
  | cons a as ih => simp [listHeadMatch, ih]

theorem listHeadMatch_append_left (pat l1 l2 : List Char) (h : pat.length ≤ l1.length) :
    listHeadMatch pat (l1 ++ l2) = listHeadMatch pat l1 := by
  induction pat generalizing l1 with
  | nil => simp [listHeadMatch]
  | cons a as ih =>
    cases l1 with
    | nil => simp at h
    | cons b bs =>
      simp only [List.cons_append, listHeadMatch, List.append_eq]
      rw [ih bs (by simpa using h)]

theorem listHeadMatch_cancel (x y z : List Char) :
    listHeadMatch (x ++ y) (x ++ z) = listHeadMatch y z := by
  induction x with
  | nil => rfl
  | cons a as ih => simp [listHeadMatch, ih]

theorem headMatch_labeled_blob_false (gc nc uc : String) :
    strHeadMatch ("--- GOOGLE DOCS ---\n" ++ gc ++ "\n\n--- NOTION ---\n" ++ nc ++
      "\n\n--- URL CONTENT ---\n" ++ uc) "Failed" = false := by
  unfold strHeadMatch
  simp only [String.data_append, List.append_assoc]
  rw [listHeadMatch_append_left _ _ _ (by decide)]
  decide

theorem cacheGet_cacheSet_self (now : Nat) (c : List (String × CacheEntry)) (key q a : String) :
    cacheGet now (cacheSet now c key q a) key = some (q, a) := by
  unfold cacheGet cacheSet
  simp [List.find?_cons]

theorem cacheGet_cacheSet_expired (now later : Nat) (c : List (String × CacheEntry))
    (key q a : String) (h : now + stdTTLms < later) :
    cacheGet later (cacheSet now c key q a) key = none := by
  unfold cacheGet cacheSet
  simp [List.find?_cons, h]

/-- C6: reindex sets the blob to the failure sentinel and reports failure
exactly when all sources settled to empty text; otherwise the blob is the
labeled concatenation (empty sections for failed or unconfigured sources) and
the operation reports success. -/
theorem indexAll_blob_and_status (g n u : FetchOutcome) :
    indexAll g n u =
      (if settle g == "" && settle n == "" && settle u == ""
       then (failSentinel, failSentinel)
       else ("--- GOOGLE DOCS ---\n" ++ settle g ++ "\n\n--- NOTION ---\n" ++ settle n ++
         "\n\n--- URL CONTENT ---\n" ++ settle u, successMsg)) ∧
    ((indexAll g n u).2 = successMsg ↔
      ¬(settle g = "" ∧ settle n = "" ∧ settle u = "")) := by
  have hchar : indexAll g n u =
      (if settle g == "" && settle n == "" && settle u == ""
       then (failSentinel, failSentinel)
       else ("--- GOOGLE DOCS ---\n" ++ settle g ++ "\n\n--- NOTION ---\n" ++ settle n ++
         "\n\n--- URL CONTENT ---\n" ++ settle u, successMsg)) := by
    unfold indexAll
    rcases hb : (settle g == "" && settle n == "" && settle u == "") with _ | _
    · simp only [hb, Bool.false_eq_true, if_false]
      rw [headMatch_labeled_blob_false]
      simp
    · simp only [hb, if_true]
      have hfail : strHeadMatch failSentinel "Failed" = true := by decide
      rw [hfail]
      simp
  refine ⟨hchar, ?_⟩
  rw [hchar]
  rcases hb : (settle g == "" && settle n == "" && settle u == "") with _ | _
  · simp only [hb, Bool.false_eq_true, if_false]
    simp only [Bool.and_eq_false_iff, beq_eq_false_iff_ne, ne_eq] at hb
    constructor
    · intro _; tauto
    · intro _; trivial
  · simp only [hb, if_true]
    simp only [Bool.and_eq_true, beq_iff_eq] at hb
    constructor
    · intro heq; exact absurd heq (by decide)
    · intro hcon; exact absurd ⟨hb.1.1, hb.1.2, hb.2⟩ hcon

/-- C7: whenever the regex finds no bracketed quoted-string list, or the
located bracketed substring fails to parse, the extractor returns the empty
list; being a total function, it never raises to the caller. -/
theorem suggestionExtractor_failure_empty (text : String) :
    (arrayMatch text = none → extractSuggestions text = []) ∧
    (∀ s, arrayMatch text = some s → parseStringArray s = none →
      extractSuggestions text = []) := by
  constructor
  · intro h
    by_cases ht : text = ""
    · simp [extractSuggestions, ht]
    · simp [extractSuggestions, ht, h]
  · intro s hs hp
    by_cases ht : text = ""
    · simp [extractSuggestions, ht]
    · simp [extractSuggestions, ht, hs, hp]

/-- Witness for `suggestionExtractor_failure_empty`: bracket-free input, and a
bracketed substring whose invalid escape makes the JSON parse fail. -/
theorem suggestionExtractor_failure_empty_witness :
    extractSuggestions "no brackets here" = [] ∧ extractSuggestions "x [\"\\q\"] y" = [] :=
  ⟨(suggestionExtractor_failure_empty "no brackets here").1 (by decide),
   (suggestionExtractor_failure_empty "x [\"\\q\"] y").2 "[\"\\q\"]" (by decide) (by decide)⟩

/-- C8: a put followed immediately by a get for the same key returns the
just-written question/answer pair, and a get strictly more than the fixed
ten-minute TTL after the last put for that key returns none. -/
theorem conversationCache_put_get_ttl (c : List (String × CacheEntry))
    (key q a : String) (now : Nat) :
    cacheGet now (cacheSet now c key q a) key = some (q, a) ∧
    (∀ later, now + stdTTLms < later → cacheGet later (cacheSet now c key q a) key = none) :=
  ⟨cacheGet_cacheSet_self now c key q a,
   fun later h => cacheGet_cacheSet_expired now later c key q a h⟩

/-- Witness for `conversationCache_put_get_ttl` at a concrete key and clock. -/
theorem conversationCache_put_get_ttl_witness :
    cacheGet 0 (cacheSet 0 [] "k" "q1" "a1") "k" = some ("q1", "a1") ∧
    cacheGet 600001 (cacheSet 0 [] "k" "q1" "a1") "k" = none :=
  ⟨(conversationCache_put_get_ttl [] "k" "q1" "a1" 0).1,
   (conversationCache_put_get_ttl [] "k" "q1" "a1" 0).2 600001 (by decide)⟩

/-- C9: a provider error is classified rate-limited exactly when its message
mentions 429 or its error payload carries the explicit rate-limit code, and
the fallback provider is consulted by generateAnswer exactly under that
classification. -/
theorem rateLimited_classification (e : JsError) (g o : String → ProviderResult)
    (p : String) (hg : g p = .err e) :
    (isRateLimitError e = true ↔
      (strContains e.message "429" = true ∨ e.errorCode = some "rate_limit_exceeded")) ∧
    ((generateAnswer g o p).openaiCalls ≠ [] ↔ isRateLimitError e = true) := by
  constructor
  · unfold isRateLimitError
    simp
  · unfold generateAnswer generateAnswerFB
    rw [hg]
    rcases hrl : isRateLimitError e with _ | _
    · simp [hrl]
    · simp only [hrl, if_true]
      cases o p <;> simp

/-- Witness for `rateLimited_classification` at a concrete 429 error. -/
theorem rateLimited_classification_witness :
    (isRateLimitError ⟨"got HTTP 429", none⟩ = true ↔
      (strContains "got HTTP 429" "429" = true ∨
        (none : Option String) = some "rate_limit_exceeded")) ∧
    ((generateAnswer (fun _ => .err ⟨"got HTTP 429", none⟩) (fun _ => .ok "t") "p").openaiCalls ≠ []
      ↔ isRateLimitError ⟨"got HTTP 429", none⟩ = true) :=
  rateLimited_classification ⟨"got HTTP 429", none⟩
    (fun _ => .err ⟨"got HTTP 429", none⟩) (fun _ => .ok "t") "p" rfl

/-- C2 counterexample: with a primary provider whose main call fails with a
non-rate-limit error ("boom") and whose suggestion call succeeds, the pipeline
returns the apology text but does not skip suggestion generation — the
returned suggestion list is nonempty, because the skip condition at
src/index.js:280 only tests for the refusal marker, which the apology does not
contain. -/
theorem otherFailure_still_generates_suggestions :
    (handleQuestion
      (fun p => if strHeadMatch p "Based on the answer" then .ok "[\"X?\"]"
                else .err ⟨"boom", none⟩)
      (fun _ => .ok "unreached") 0 ⟨[], "P", "K"⟩ "q" "C" "U" none).text = apologyText ∧
    (handleQuestion
      (fun p => if strHeadMatch p "Based on the answer" then .ok "[\"X?\"]"
                else .err ⟨"boom", none⟩)
      (fun _ => .ok "unreached") 0 ⟨[], "P", "K"⟩ "q" "C" "U" none).suggestions = ["X?"] := by
  decide

/-- C2 amended: on a non-rate-limit primary failure the fallback is never
invoked and the fixed apology is returned, but suggestion generation is not
skipped — the pipeline still issues the suggestion call for the apology text
and returns whatever it yields. -/
theorem otherFailure_apology_no_fallback (g o : String → ProviderResult) (now : Nat)
    (st : BotState) (q ch u : String) (ov : Option String) (e : JsError)
    (hg : g (buildPrompt st.persona (cacheGet now st.cache (conversationKey u ch))
      (resolveDocument ov st.indexedKnowledge) q) = .err e)
    (hrl : isRateLimitError e = false) :
    (handleQuestion g o now st q ch u ov).text = apologyText ∧
    (handleQuestion g o now st q ch u ov).openaiCalls = [] ∧
    (handleQuestion g o now st q ch u ov).suggestions
      = generateSuggestions g (suggestionPrompt apologyText) := by
  have hds : strContains apologyText refusalMarker = false := by decide
  simp only [handleQuestion, generateAnswer]
  rw [hg]
  simp [hrl, hds]

/-- Witness for `otherFailure_apology_no_fallback` with concrete stubbed
providers. -/
theorem otherFailure_apology_no_fallback_witness :
    (handleQuestion
      (fun p => if strHeadMatch p "Based on the answer" then .ok "[\"X?\"]"
                else .err ⟨"boom", none⟩)
      (fun _ => .ok "unreached") 0 ⟨[], "P", "K"⟩ "q" "C" "U" none).openaiCalls = [] ∧
    (handleQuestion
      (fun p => if strHeadMatch p "Based on the answer" then .ok "[\"X?\"]"
                else .err ⟨"boom", none⟩)
      (fun _ => .ok "unreached") 0 ⟨[], "P", "K"⟩ "q" "C" "U" none).suggestions
      = generateSuggestions
          (fun p => if strHeadMatch p "Based on the answer" then .ok "[\"X?\"]"
                    else .err ⟨"boom", none⟩)
          (suggestionPrompt apologyText) := by
  have h := otherFailure_apology_no_fallback
    (fun p => if strHeadMatch p "Based on the answer" then .ok "[\"X?\"]"
              else .err ⟨"boom", none⟩)
    (fun _ => .ok "unreached") 0 ⟨[], "P", "K"⟩ "q" "C" "U" none ⟨"boom", none⟩
    (by decide) (by decide)
  exact ⟨h.2.1, h.2.2⟩

/-- C3 counterexample: a model response proposing the same question four times
flows through the pipeline unchanged — four suggestions with duplicates — and
rendering emits four suggestion blocks, violating both the ≤3 bound and the
deduplication. -/
theorem suggestions_exceed_three_with_duplicates :
    (handleQuestion
      (fun p => if strHeadMatch p "Based on the answer"
                then .ok "[\"A?\", \"A?\", \"A?\", \"A?\"]" else .ok "ans")
      (fun _ => .ok "unused") 0 ⟨[], "P", "K"⟩ "q" "C" "U" none).suggestions
      = ["A?", "A?", "A?", "A?"] ∧
    ((buildMessagePayload "ans" ["A?", "A?", "A?", "A?"]).blocks.drop 3).length = 4 := by
  decide

/-- C3 amended: the pipeline hands the parsed suggestion list to rendering
unchanged (no deduplication, no truncation), and rendering emits exactly the
first five proposed items in order — so at most five suggestion blocks,
duplicates preserved. -/
theorem rendered_suggestions_first_five (text : String) (suggestions : List String) :
    ((buildMessagePayload text suggestions).blocks.drop 3)
      = (suggestions.take 5).map (fun q => Block.sec (">_" ++ q ++ "_")) ∧
    ((buildMessagePayload text suggestions).blocks.drop 3).length ≤ 5 := by
  cases suggestions with
  | nil => simp [buildMessagePayload]
  | cons a as =>
    have hb : (buildMessagePayload text (a :: as)).blocks.drop 3
        = ((a :: as).take 5).map (fun q => Block.sec (">_" ++ q ++ "_")) := by
      simp [buildMessagePayload]
    refine ⟨hb, ?_⟩
    rw [hb]
    simp only [List.length_map, List.length_take]
    omega

/-- C4 counterexample: starting from a live memory entry ("oldQ", "oldA"), a
question whose primary call fails with a non-rate-limit error leaves the
apology committed to memory — the entry for the conversation key changes. -/
theorem failure_answer_overwrites_memory_cex :
    cacheGet 0 (handleQuestion (fun _ => .err ⟨"boom", none⟩) (fun _ => .ok "unused") 0
        ⟨[("convo-U-C", ⟨"oldQ", "oldA", 600000⟩)], "P", "K"⟩ "q" "C" "U" none).newCache
      "convo-U-C" = some ("q", apologyText) ∧
    cacheGet 0 (handleQuestion (fun _ => .err ⟨"boom", none⟩) (fun _ => .ok "unused") 0
        ⟨[("convo-U-C", ⟨"oldQ", "oldA", 600000⟩)], "P", "K"⟩ "q" "C" "U" none).newCache
      "convo-U-C"
      ≠ cacheGet 0 [("convo-U-C", ⟨"oldQ", "oldA", 600000⟩)] "convo-U-C" := by
  decide

/-- C4 amended: failure-path answers are committed to memory — after a
non-rate-limit primary failure, the memory entry for the conversation key
holds the new question paired with the apology text (src/index.js:285 runs
unconditionally). -/
theorem failure_answer_committed_to_memory (g o : String → ProviderResult) (now : Nat)
    (st : BotState) (q ch u : String) (ov : Option String) (e : JsError)
    (hg : g (buildPrompt st.persona (cacheGet now st.cache (conversationKey u ch))
      (resolveDocument ov st.indexedKnowledge) q) = .err e)
    (hrl : isRateLimitError e = false) :
    cacheGet now (handleQuestion g o now st q ch u ov).newCache (conversationKey u ch)
      = some (q, apologyText) := by
  simp only [handleQuestion, generateAnswer]
  rw [hg]
  simp [hrl, cacheGet_cacheSet_self]

/-- Witness for `failure_answer_committed_to_memory` with a concrete failing
primary. -/
theorem failure_answer_committed_to_memory_witness :
    cacheGet 0 (handleQuestion (fun _ => .err ⟨"quota", none⟩) (fun _ => .ok "unused") 0
        ⟨[], "P", "K"⟩ "q" "C" "U" none).newCache (conversationKey "U" "C")
      = some ("q", apologyText) :=
  failure_answer_committed_to_memory (fun _ => .err ⟨"quota", none⟩) (fun _ => .ok "unused")
    0 ⟨[], "P", "K"⟩ "q" "C" "U" none ⟨"quota", none⟩ rfl (by decide)

/-- C5 counterexample: the suggestion call is not two-tier. The primary fails
on the suggestion prompt with an error classified rate-limited and the
fallback would succeed, yet the fallback is never invoked and the suggestion
list degrades to empty. -/
theorem suggestion_call_no_fallback_cex :
    isRateLimitError ⟨"HTTP 429", none⟩ = true ∧
    (handleQuestion
      (fun p => if strHeadMatch p "Based on the answer" then .err ⟨"HTTP 429", none⟩
                else .ok "ans")
      (fun _ => .ok "[\"Y?\"]") 0 ⟨[], "P", "K"⟩ "q" "C" "U" none).suggestions = [] ∧
    (handleQuestion
      (fun p => if strHeadMatch p "Based on the answer" then .err ⟨"HTTP 429", none⟩
                else .ok "ans")
      (fun _ => .ok "[\"Y?\"]") 0 ⟨[], "P", "K"⟩ "q" "C" "U" none).openaiCalls = [] := by
  decide

/-- C5 amended: suggestion generation consults the primary provider only (the
fallback is never invoked for the suggestion prompt), and any failure of that
single call degrades to an empty suggestion list rather than an error. -/
theorem suggestions_primary_only_degrade_empty (g : String → ProviderResult)
    (p : String) (e : JsError) (h : g p = .err e) :
    generateSuggestions g p = [] := by
  unfold generateSuggestions
  rw [h]

/-- Witness for `suggestions_primary_only_degrade_empty` at a concrete
rate-limited primary failure. -/
theorem suggestions_primary_only_degrade_empty_witness :
    generateSuggestions (fun _ => .err ⟨"HTTP 429", none⟩) "sp" = [] :=
  suggestions_primary_only_degrade_empty (fun _ => .err ⟨"HTTP 429", none⟩) "sp"
    ⟨"HTTP 429", none⟩ rfl

theorem generateAnswer_geminiCalls_cons (g o : String → ProviderResult) (p : String) :
    ∃ rest, (generateAnswer g o p).geminiCalls = p :: rest := by
  unfold generateAnswer generateAnswerFB
  cases g p with
  | ok t => exact ⟨[], rfl⟩
  | err e =>
    rcases hrl : isRateLimitError e with _ | _
    · simp [hrl]
    · simp only [hrl, if_true]
      cases o p <;> simp

/-- C10: the persona is one process-wide mutable value. After any set-persona
command with nonempty trimmed text P, the state's persona is P, and the main
answer prompt built by handleQuestion for every user and channel opens with
"You are P. " — so one conversation's persona write is observable in every
other conversation's answers. -/
theorem persona_shared_across_conversations (st : BotState) (text : String)
    (h : jsTrim text ≠ "") (g o : String → ProviderResult) (now : Nat)
    (q ch u : String) (ov : Option String) :
    (setPersonaCommand text st).persona = jsTrim text ∧
    strHeadMatch
      ((handleQuestion g o now (setPersonaCommand text st) q ch u ov).geminiCalls.headD "")
      ("You are " ++ jsTrim text ++ ". ") = true := by
  have hp : (setPersonaCommand text st).persona = jsTrim text := by
    unfold setPersonaCommand
    simp [h]
  refine ⟨hp, ?_⟩
  obtain ⟨rest, hr⟩ := generateAnswer_geminiCalls_cons g o
    (buildPrompt (setPersonaCommand text st).persona
      (cacheGet now (setPersonaCommand text st).cache (conversationKey u ch))
      (resolveDocument ov (setPersonaCommand text st).indexedKnowledge) q)
  have hhead : (handleQuestion g o now (setPersonaCommand text st) q ch u ov).geminiCalls.headD ""
      = buildPrompt (setPersonaCommand text st).persona
          (cacheGet now (setPersonaCommand text st).cache (conversationKey u ch))
          (resolveDocument ov (setPersonaCommand text st).indexedKnowledge) q := by
    simp only [handleQuestion]
    rw [hr]
    simp
  rw [hhead, hp]
  unfold strHeadMatch buildPrompt
  simp only [String.data_append, List.append_assoc]
  rw [listHeadMatch_cancel, listHeadMatch_cancel]
  simp [listHeadMatch]

/-- Witness for `persona_shared_across_conversations`: a persona set from one
conversation shows up in the prompt built for a different user and channel. -/
theorem persona_shared_across_conversations_witness :
    (setPersonaCommand " a witty pirate " ⟨[], "old persona", "K"⟩).persona
      = jsTrim " a witty pirate " ∧
    strHeadMatch
      ((handleQuestion (fun _ => .ok "ok") (fun _ => .ok "fb") 0
          (setPersonaCommand " a witty pirate " ⟨[], "old persona", "K"⟩)
          "q2" "otherChannel" "otherUser" none).geminiCalls.headD "")
      ("You are " ++ jsTrim " a witty pirate " ++ ". ") = true :=
  persona_shared_across_conversations ⟨[], "old persona", "K"⟩ " a witty pirate "
    (by decide) (fun _ => .ok "ok") (fun _ => .ok "fb") 0 "q2" "otherChannel" "otherUser" none

end SlackBot
